import Mathlib

/-!
Verification of the core of the `simple-c-compiler` sources against its
natural-language specification.

The development shallowly embeds the relevant Rust sources:
  - `src/lexer.rs`        : token model and the regex-list lexer
  - `src/parser.rs`       : the recursive-descent expression/statement parser
  - `src/tac.rs`          : the AST-to-three-address-code lowering pass
  - `src/generator/...`   : the TAC-to-x86-64 backend (`from_tac.rs`,
                            `x64_translator.rs`, `translator.rs`)

Modelling conventions used throughout:
  - Rust panics (`unwrap` on `None`/`Err`, `unimplemented!`, `unreachable!`,
    index out of bounds) are modelled as explicit error values of a dedicated
    error type per stage; `Except.error` of such a value means the Rust code
    aborts the process at that point.
  - Recursive procedures whose Rust termination argument is informal take an
    explicit fuel parameter (first argument); exhausting fuel yields a
    dedicated `fuelOut` error.  Theorems either quantify over the fuel or use
    a concrete fuel large enough for the input at hand.
  - Rust `Vec` used as a stack (push/pop/last at the back) is modelled as a
    Lean `List` whose HEAD is the top of the stack.
  - `HashMap` with insert-overwrite semantics is modelled as an association
    list where insertion conses and lookup returns the most recent binding.
  - Machine integers (`i32`, `i64`, `usize`) are modelled as `Int`/`Nat`;
    none of the verified claims exercises overflow.
-/

namespace SCC

/-! ## Token model (src/lexer.rs and the token kinds referenced by src/parser.rs)

`src/lexer.rs` defines the 15 token kinds it can produce; `src/parser.rs`
pattern-matches on a larger set of kinds (assignment operators, comparison
operators, shifts, increment/decrement, ...).  The enumeration below is the
union, with the constructor names taken verbatim from the sources. -/

inductive TokenType
  | OpenBrace | CloseBrace | OpenParenthesis | CloseParenthesis
  | Semicolon | Return | Int | Identifier | IntegerLiteral
  | Negation | BitwiseComplement | LogicalNegation
  | Addition | Multiplication | Division
  | Modulo | And | Or | Equal | NotEqual
  | LessThan | LessThanOrEqual | GreaterThan | GreaterThanOrEqual
  | BitwiseLeftShift | BitwiseRightShift
  | BitwiseAnd | BitwiseOr | BitwiseXor
  | Assignment | AssignmentPlus | AssignmentSub | AssignmentMul | AssignmentDiv
  | AssignmentMod | AssignmentBitLeftShift | AssignmentBitRightShift
  | AssignmentBitAnd | AssignmentBitOr | AssignmentBitXor
  | Increment | Decrement
  deriving DecidableEq, Repr

/-- Half-open source range; the Rust field `end` is renamed `stop`
(`end` is a Lean keyword). -/
structure Pos where
  start : Nat
  stop : Nat
  deriving DecidableEq, Repr

structure Token where
  token_type : TokenType
  pos : Pos
  val : Option String
  deriving DecidableEq, Repr

/-- `Token::is_type` as used by src/parser.rs. -/
def Token.is_type (t : Token) (tt : TokenType) : Bool :=
  t.token_type == tt

/-! ## Lexer (src/lexer.rs)

Each `TokenDefinition` holds an anchored regex; `check` returns the match at
the start of the text, its length and the remaining text.  The five regex
shapes appearing in `Lexer::new` are modelled by dedicated matching
functions over `List Char`:
  - `^int`            : literal prefix, no trailing word boundary
  - `^\breturn\b`     : literal prefix with a trailing word boundary
  - `^[a-zA-Z]\w*`    : identifier
  - `^\d+`            : integer literal
  - single-character literals for the punctuation and operator tokens. -/

namespace Lexer

/-- Character class `\w` of the regex crate (ASCII relevant subset). -/
def isWordChar (c : Char) : Bool :=
  c.isAlpha || c.isDigit || c == '_'

structure TokenMatch where
  token : TokenType
  value : List Char
  pos : Pos
  remainingText : List Char
  deriving DecidableEq, Repr

/-- Longest prefix of word characters together with the rest. -/
def takeWord : List Char → (List Char × List Char)
  | [] => ([], [])
  | c :: cs =>
    if isWordChar c then
      let (w, r) := takeWord cs
      (c :: w, r)
    else ([], c :: cs)

/-- Longest prefix of digits together with the rest. -/
def takeDigits : List Char → (List Char × List Char)
  | [] => ([], [])
  | c :: cs =>
    if c.isDigit then
      let (d, r) := takeDigits cs
      (c :: d, r)
    else ([], c :: cs)

/-- Match of the anchored literal regex `^int` (`TokenDefinition::check` for
the `Int` definition): succeeds whenever the text merely starts with the
three characters, regardless of what follows. -/
def checkInt (text : List Char) : Option TokenMatch :=
  match text with
  | 'i' :: 'n' :: 't' :: rest =>
    some ⟨.Int, ['i', 'n', 't'], ⟨0, 3⟩, rest⟩
  | _ => none

/-- Match of the anchored regex with word boundaries for the keyword
`return`: the six characters must not be followed by a word character. -/
def checkReturn (text : List Char) : Option TokenMatch :=
  match text with
  | 'r' :: 'e' :: 't' :: 'u' :: 'r' :: 'n' :: rest =>
    match rest with
    | [] => some ⟨.Return, "return".toList, ⟨0, 6⟩, []⟩
    | c :: _ =>
      if isWordChar c then none
      else some ⟨.Return, "return".toList, ⟨0, 6⟩, rest⟩
  | _ => none

/-- Match of the identifier regex. -/
def checkIdentifier (text : List Char) : Option TokenMatch :=
  match text with
  | [] => none
  | c :: cs =>
    if c.isAlpha then
      let (w, r) := takeWord cs
      some ⟨.Identifier, c :: w, ⟨0, (c :: w).length⟩, r⟩
    else none

/-- Match of the integer-literal regex. -/
def checkIntegerLiteral (text : List Char) : Option TokenMatch :=
  match text with
  | [] => none
  | c :: cs =>
    if c.isDigit then
      let (d, r) := takeDigits cs
      some ⟨.IntegerLiteral, c :: d, ⟨0, (c :: d).length⟩, r⟩
    else none

/-- Match of a single-character literal regex. -/
def checkChar (tt : TokenType) (ch : Char) (text : List Char) : Option TokenMatch :=
  match text with
  | [] => none
  | c :: cs =>
    if c == ch then some ⟨tt, [c], ⟨0, 1⟩, cs⟩ else none

/-- The definition vector built in `Lexer::new`, in its exact order. -/
def definitions : List (List Char → Option TokenMatch) :=
  [checkInt, checkReturn, checkIdentifier, checkIntegerLiteral,
   checkChar .OpenParenthesis '(', checkChar .CloseParenthesis ')',
   checkChar .OpenBrace '{', checkChar .CloseBrace '}',
   checkChar .Semicolon ';', checkChar .Negation '-',
   checkChar .BitwiseComplement '~', checkChar .LogicalNegation '!',
   checkChar .Addition '+', checkChar .Multiplication '*',
   checkChar .Division '/']

/-- The `for def in &self.definition` loop of `Lexer::find_match`: the
FIRST definition whose regex matches wins. -/
def findMatchIn : List (List Char → Option TokenMatch) → List Char → Option TokenMatch
  | [], _ => none
  | d :: ds, text =>
    match d text with
    | some m => some m
    | none => findMatchIn ds text

/-- `Lexer::find_match`. -/
def find_match (text : List Char) : Option TokenMatch :=
  findMatchIn definitions text

/-- `Lexer::create_token_from_match`. -/
def create_token_from_match (m : TokenMatch) : Token :=
  { token_type := m.token
    pos := m.pos
    val :=
      match m.token with
      | .Identifier | .IntegerLiteral => some (String.mk m.value)
      | _ => none }

/-- Main scan loop of `Lexer::lex`.  The fuel only bounds the number of loop
iterations; since every iteration consumes at least one character,
`text.length` iterations always suffice. -/
def lexLoop : Nat → Nat → List Char → List Token
  | 0, _, _ => []
  | _ + 1, _, [] => []
  | fuel + 1, offset, text =>
    match find_match text with
    | some m =>
      let token := create_token_from_match m
      let token := { token with pos := ⟨token.pos.start + offset, token.pos.stop + offset⟩ }
      token :: lexLoop fuel token.pos.stop m.remainingText
    | none => lexLoop fuel (offset + 1) (text.drop 1)

/-- `Lexer::lex` on an in-memory byte stream. -/
def lex (text : List Char) : List Token :=
  lexLoop text.length 0 text

end Lexer

/-! ## AST (src/ast/ast.rs as consumed by src/parser.rs and src/tac.rs)

The repository snapshot contains slightly diverging views of the AST between
`ast.rs`, `parser.rs` and `tac.rs`; the embedding uses the union that the
parser constructs and the TAC lowerer consumes:
  - `UnOp` carries the seven variants `parser.rs`/`tac.rs` reference; the
    increment/decrement variants are spelled `IncrementPre`/`IncrementPost`/
    `DecrementPre`/`DecrementPost` here (`...Prefix`/`...Postfix` in Rust).
  - `Exp.Const` inlines `ast::Const::Int`.
  - `Statement.Exp` carries an `Option Exp` (as `ast.rs` declares and
    `tac.rs` consumes); the parser wraps the parsed expression in `some`. -/

inductive BinOp
  | BitwiseXor | BitwiseOr | BitwiseAnd
  | Addition | Sub | Multiplication | Division | Modulo
  | And | Or | Equal | NotEqual
  | LessThan | LessThanOrEqual | GreaterThan | GreaterThanOrEqual
  | BitwiseLeftShift | BitwiseRightShift
  deriving DecidableEq, Repr

inductive UnOp
  | Negation | BitwiseComplement | LogicalNegation
  | IncrementPre | IncrementPost | DecrementPre | DecrementPost
  deriving DecidableEq, Repr

inductive AssignmentOp
  | Plus | Sub | Mul | Div | Mod
  | BitLeftShift | BitRightShift | BitAnd | BitOr | BitXor
  deriving DecidableEq, Repr

inductive Exp
  | Assign (name : String) (e : Exp)
  | Var (name : String)
  | Const (c : Int)
  | UnOp (op : UnOp) (e : Exp)
  | BinOp (op : BinOp) (l : Exp) (r : Exp)
  | AssignOp (name : String) (op : AssignmentOp) (e : Exp)
  | CondExp (cond : Exp) (thenE : Exp) (elseE : Exp)
  | FuncCall (name : String) (params : List Exp)
  deriving Repr

mutual

inductive Statement
  | Return (exp : Exp)
  | Exp (exp : Option Exp)
  | Conditional (cond_expr : Exp) (if_block : Statement) (else_block : Option Statement)
  | Compound (list : Option (List BlockItem))
  | For (exp1 : Option Exp) (exp2 : Exp) (exp3 : Option Exp) (statement : Statement)
  | ForDecl (decl : Declaration) (exp2 : Exp) (exp3 : Option Exp) (statement : Statement)
  | While (exp : Exp) (statement : Statement)
  | Do (statement : Statement) (exp : Exp)
  | Break
  | Continue

inductive Declaration
  | Declare (name : String) (exp : Option Exp)

inductive BlockItem
  | Statement (s : Statement)
  | Declaration (d : Declaration)

end

/-- `ast::FuncDecl`; `parser.rs` never fills `parameters` (it parses a
parameterless header) and always supplies a body. -/
structure FuncDecl where
  name : String
  parameters : List String
  blocks : Option (List BlockItem)

/-- `ast::Program` as built by `parser.rs`: `Program(FuncDecl)`. -/
structure Program where
  decl : FuncDecl

/-! ## Parser (src/parser.rs)

Error model: `PErr.parseErr` is the returned value
`CompilerError::ParsingError` (which carries no further data — no position,
no expected kind); `PErr.panic` models a Rust panic (`unwrap` on `None` or
`Err`, out-of-bounds indexing); `PErr.fuelOut` is the fuel artifact. -/

inductive PErr
  | panic | parseErr | fuelOut
  deriving DecidableEq, Repr

abbrev PResult (α : Type) : Type := Except PErr α

/-- Rust `.unwrap()` applied to a `parser::Result`: any error aborts. -/
def unwrapE {α : Type} : PResult α → PResult α
  | .ok a => .ok a
  | .error _ => .error .panic

namespace Parser

/-- `map_token_to_ast` (src/parser.rs): the token kinds denoting binary
operators; `none` for every other kind. -/
def map_token_to_ast : TokenType → Option BinOp
  | .BitwiseXor => some .BitwiseXor
  | .BitwiseOr => some .BitwiseOr
  | .BitwiseAnd => some .BitwiseAnd
  | .Addition => some .Addition
  | .Negation => some .Sub
  | .Multiplication => some .Multiplication
  | .Division => some .Division
  | .Modulo => some .Modulo
  | .And => some .And
  | .Or => some .Or
  | .Equal => some .Equal
  | .NotEqual => some .NotEqual
  | .LessThan => some .LessThan
  | .LessThanOrEqual => some .LessThanOrEqual
  | .GreaterThan => some .GreaterThan
  | .GreaterThanOrEqual => some .GreaterThanOrEqual
  | .BitwiseLeftShift => some .BitwiseLeftShift
  | .BitwiseRightShift => some .BitwiseRightShift
  | _ => none

/-- `map_token_to_unop`. -/
def map_token_to_unop : TokenType → Option UnOp
  | .BitwiseComplement => some .BitwiseComplement
  | .LogicalNegation => some .LogicalNegation
  | .Negation => some .Negation
  | _ => none

/-- `map_inc_dec_token_to_unop`. -/
def map_inc_dec_token_to_unop (t : TokenType) (isPost : Bool) : Option UnOp :=
  if isPost then
    match t with
    | .Increment => some .IncrementPost
    | .Decrement => some .DecrementPost
    | _ => none
  else
    match t with
    | .Increment => some .IncrementPre
    | .Decrement => some .DecrementPre
    | _ => none

/-- Numeric value of a digit run; `none` when empty or a non-digit occurs.
Helper for the model of `str::parse::<i64>`. -/
def digitsToNat : List Char → Option Nat
  | [] => none
  | cs => go cs 0
where
  go : List Char → Nat → Option Nat
    | [], acc => some acc
    | c :: rest, acc =>
      if c.isDigit then go rest (acc * 10 + (c.toNat - '0'.toNat))
      else none

/-- Model of `str::parse::<i64>`: an optional sign followed by digits
(overflow is not modelled; the verified inputs stay tiny). -/
def parseI64 (s : String) : Option Int :=
  match s.toList with
  | '+' :: rest => (digitsToNat rest).map Int.ofNat
  | '-' :: rest => (digitsToNat rest).map (fun n => -(Int.ofNat n))
  | cs => (digitsToNat cs).map Int.ofNat

/-- `compare_token`: `Ok` on kind match, `Err(ParsingError)` otherwise. -/
def compare_token (tok : Token) (tok_type : TokenType) : PResult Token :=
  if tok.token_type == tok_type then .ok tok else .error .parseErr

/-- `compare_token(tokens.remove(0), tt).unwrap()`: removing from an empty
vector panics, and the `unwrap` turns a kind mismatch into a panic. -/
def expectToken (tokens : List Token) (tt : TokenType) : PResult (Token × List Token) :=
  match tokens with
  | [] => .error .panic
  | t :: rest =>
    match unwrapE (compare_token t tt) with
    | .ok tok => .ok (tok, rest)
    | .error e => .error e

/-- Tags naming the sub-parser passed to the generic `parse_expr` helper at
each of its call sites (a defunctionalisation of the Rust closure
argument). -/
inductive SubP
  | orExpr | andExpr | equalityExpr | relationalExpr
  | addictiveExpr | bitwiseExpr | unOpTerm | term | factor
  deriving DecidableEq, Repr

mutual

/-- Generic left-associative level parser `parse_expr(parse, opt_tokens,
tokens)`: parse one sub-expression, then loop while the lookahead is one of
`opt_tokens`. -/
def parse_expr (sub : SubP) (opt_tokens : List TokenType) :
    Nat → List Token → PResult (Exp × List Token)
  | 0, _ => .error .fuelOut
  | fuel + 1, tokens =>
    match runSub sub fuel tokens with
    | .error e => .error e
    | .ok (exp, tokens) => parseExprLoop sub opt_tokens fuel exp tokens

/-- The `while let Some(tok) = tokens.get(0)` loop inside `parse_expr`:
builds the left-leaning `BinOp` chain. -/
def parseExprLoop (sub : SubP) (opt_tokens : List TokenType) :
    Nat → Exp → List Token → PResult (Exp × List Token)
  | 0, _, _ => .error .fuelOut
  | fuel + 1, exp, tokens =>
    match tokens with
    | [] => .ok (exp, [])
    | tok :: rest =>
      if opt_tokens.contains tok.token_type then
        match runSub sub fuel rest with
        | .error e => .error e
        | .ok (right, stashed) =>
          match map_token_to_ast tok.token_type with
          | some op => parseExprLoop sub opt_tokens fuel (.BinOp op exp right) stashed
          | none => .error .panic
      else .ok (exp, tok :: rest)

/-- Dispatch for the defunctionalised sub-parser argument. -/
def runSub : SubP → Nat → List Token → PResult (Exp × List Token)
  | _, 0, _ => .error .fuelOut
  | .orExpr, fuel + 1, ts => parse_or_expr fuel ts
  | .andExpr, fuel + 1, ts => parse_and_expr fuel ts
  | .equalityExpr, fuel + 1, ts => parse_equality_expr fuel ts
  | .relationalExpr, fuel + 1, ts => parse_relational_expr fuel ts
  | .addictiveExpr, fuel + 1, ts => parse_addictive_expr fuel ts
  | .bitwiseExpr, fuel + 1, ts => parse_bitwise_expr fuel ts
  | .unOpTerm, fuel + 1, ts => parse_un_op_term fuel ts
  | .term, fuel + 1, ts => parse_term fuel ts
  | .factor, fuel + 1, ts => parse_factor fuel ts

/-- `parse_exp`: the assignment level.  When the two-token lookahead is
`IDENT ASSIGN_OP` the assignment is parsed right-recursively, otherwise the
input falls through to `parse_expr(parse_or_expr, [Or])`. -/
def parse_exp : Nat → List Token → PResult (Exp × List Token)
  | 0, _ => .error .fuelOut
  | fuel + 1, tokens =>
    match tokens.get? 0 with
    | none => .error .panic
    | some t0 =>
      if t0.is_type .Identifier then
        match tokens.get? 1 with
        | none => .error .panic
        | some t1 =>
          let mk : Option (String → Exp → Exp) :=
            if t1.is_type .Assignment then some (fun n e => .Assign n e)
            else if t1.is_type .AssignmentPlus then some (fun n e => .AssignOp n .Plus e)
            else if t1.is_type .AssignmentSub then some (fun n e => .AssignOp n .Sub e)
            else if t1.is_type .AssignmentMul then some (fun n e => .AssignOp n .Mul e)
            else if t1.is_type .AssignmentDiv then some (fun n e => .AssignOp n .Div e)
            else if t1.is_type .AssignmentMod then some (fun n e => .AssignOp n .Mod e)
            else if t1.is_type .AssignmentBitLeftShift then
              some (fun n e => .AssignOp n .BitLeftShift e)
            else if t1.is_type .AssignmentBitRightShift then
              some (fun n e => .AssignOp n .BitRightShift e)
            else if t1.is_type .AssignmentBitAnd then some (fun n e => .AssignOp n .BitAnd e)
            else if t1.is_type .AssignmentBitOr then some (fun n e => .AssignOp n .BitOr e)
            else if t1.is_type .AssignmentBitXor then some (fun n e => .AssignOp n .BitXor e)
            else none
          match mk with
          | some mkAssign =>
            match parse_exp fuel (tokens.drop 2) with
            | .error e => .error e
            | .ok (exp, rest) =>
              match t0.val with
              | some name => .ok (mkAssign name exp, rest)
              | none => .error .panic
          | none => parse_expr .orExpr [.Or] fuel tokens
      else parse_expr .orExpr [.Or] fuel tokens

/-- `parse_or_expr`. -/
def parse_or_expr : Nat → List Token → PResult (Exp × List Token)
  | 0, _ => .error .fuelOut
  | fuel + 1, ts => parse_expr .andExpr [.Or] fuel ts

/-- `parse_and_expr`. -/
def parse_and_expr : Nat → List Token → PResult (Exp × List Token)
  | 0, _ => .error .fuelOut
  | fuel + 1, ts => parse_expr .equalityExpr [.And] fuel ts

/-- `parse_equality_expr`. -/
def parse_equality_expr : Nat → List Token → PResult (Exp × List Token)
  | 0, _ => .error .fuelOut
  | fuel + 1, ts => parse_expr .relationalExpr [.Equal, .NotEqual] fuel ts

/-- `parse_relational_expr`. -/
def parse_relational_expr : Nat → List Token → PResult (Exp × List Token)
  | 0, _ => .error .fuelOut
  | fuel + 1, ts =>
    parse_expr .addictiveExpr
      [.GreaterThan, .GreaterThanOrEqual, .LessThan, .LessThanOrEqual] fuel ts

/-- `parse_addictive_expr`: `+`/`-` over the shift level. -/
def parse_addictive_expr : Nat → List Token → PResult (Exp × List Token)
  | 0, _ => .error .fuelOut
  | fuel + 1, ts => parse_expr .bitwiseExpr [.Addition, .Negation] fuel ts

/-- `parse_bitwise_expr`: `<<`/`>>` over the `&`/`|`/`^` level. -/
def parse_bitwise_expr : Nat → List Token → PResult (Exp × List Token)
  | 0, _ => .error .fuelOut
  | fuel + 1, ts =>
    parse_expr .unOpTerm [.BitwiseLeftShift, .BitwiseRightShift] fuel ts

/-- `parse_un_op_term`: `&`, `|` and `^` (all at one level) over the
multiplicative level. -/
def parse_un_op_term : Nat → List Token → PResult (Exp × List Token)
  | 0, _ => .error .fuelOut
  | fuel + 1, ts =>
    parse_expr .term [.BitwiseAnd, .BitwiseOr, .BitwiseXor] fuel ts

/-- `parse_term`: `*`, `%`, `/` over `parse_factor`. -/
def parse_term : Nat → List Token → PResult (Exp × List Token)
  | 0, _ => .error .fuelOut
  | fuel + 1, ts =>
    parse_expr .factor [.Multiplication, .Modulo, .Division] fuel ts

/-- `parse_factor`. -/
def parse_factor : Nat → List Token → PResult (Exp × List Token)
  | 0, _ => .error .fuelOut
  | fuel + 1, tokens =>
    match tokens with
    | [] => .error .panic
    | picked :: rest =>
      match picked.token_type with
      | .OpenParenthesis =>
        match unwrapE (parse_exp fuel rest) with
        | .error e => .error e
        | .ok (expr, tokens2) =>
          match tokens2 with
          | [] => .error .panic
          | token :: rest2 =>
            if token.token_type != .CloseParenthesis then .error .parseErr
            else .ok (expr, rest2)
      | .Identifier =>
        match picked.val with
        | none => .error .panic
        | some name =>
          let var := Exp.Var name
          match rest.get? 0 with
          | some tok =>
            if tok.is_type .Decrement || tok.is_type .Increment then
              match map_inc_dec_token_to_unop tok.token_type true with
              | some op => .ok (.UnOp op var, rest.drop 1)
              | none => .error .panic
            else .ok (var, rest)
          | none => .ok (var, rest)
      | .IntegerLiteral =>
        match picked.val with
        | none => .error .panic
        | some s =>
          match parseI64 s with
          | some n => .ok (.Const n, rest)
          | none => .error .panic
      | .Negation | .LogicalNegation | .BitwiseComplement =>
        match unwrapE (parse_expr .factor [.Or] fuel rest) with
        | .error e => .error e
        | .ok (expr, tokens2) =>
          match map_token_to_unop picked.token_type with
          | some op => .ok (.UnOp op expr, tokens2)
          | none => .error .panic
      | _ => parse_inc_dec_expr fuel tokens

/-- `parse_inc_dec_expr`. -/
def parse_inc_dec_expr : Nat → List Token → PResult (Exp × List Token)
  | 0, _ => .error .fuelOut
  | fuel + 1, tokens =>
    match tokens with
    | [] => .error .panic
    | token :: rest =>
      match token.token_type with
      | .Increment | .Decrement =>
        match unwrapE (parse_expr .factor [.Or] fuel rest) with
        | .error e => .error e
        | .ok (expr, tokens2) =>
          match map_inc_dec_token_to_unop token.token_type false with
          | some op => .ok (.UnOp op expr, tokens2)
          | none => .error .panic
      | _ => .error .parseErr

/-- `parse_statement`: `return expr ;` or an expression statement. -/
def parse_statement : Nat → List Token → PResult (Statement × List Token)
  | 0, _ => .error .fuelOut
  | fuel + 1, tokens =>
    match tokens.get? 0 with
    | none => .error .panic
    | some t =>
      let stRes : PResult (Statement × List Token) :=
        if t.token_type == .Return then
          match unwrapE (parse_exp fuel (tokens.drop 1)) with
          | .error e => .error e
          | .ok (exp, ts) => .ok (.Return exp, ts)
        else
          match parse_exp fuel tokens with
          | .error e => .error e
          | .ok (exp, ts) => .ok (.Exp (some exp), ts)
      match stRes with
      | .error e => .error e
      | .ok (stat, ts) =>
        match ts with
        | [] => .error .panic
        | tok :: rest =>
          match unwrapE (compare_token tok .Semicolon) with
          | .error e => .error e
          | .ok _ => .ok (stat, rest)

/-- `parse_block_item`: a declaration when the lookahead is `int`, a
statement otherwise. -/
def parse_block_item : Nat → List Token → PResult (BlockItem × List Token)
  | 0, _ => .error .fuelOut
  | fuel + 1, tokens =>
    match tokens with
    | tok :: rest =>
      if tok.token_type == .Int then
        match rest with
        | [] => .error .panic
        | vtok :: rest2 =>
          match compare_token vtok .Identifier with
          | .error e => .error e
          | .ok var =>
            let expRes : PResult (Option Exp × List Token) :=
              match rest2.get? 0 with
              | some t2 =>
                if t2.is_type .Assignment then
                  match parse_exp fuel (rest2.drop 1) with
                  | .error e => .error e
                  | .ok (exp, toks) => .ok (some exp, toks)
                else .ok (none, rest2)
              | none => .ok (none, rest2)
            match expRes with
            | .error e => .error e
            | .ok (exp, rest3) =>
              match rest3 with
              | [] => .error .panic
              | st :: rest4 =>
                match unwrapE (compare_token st .Semicolon) with
                | .error e => .error e
                | .ok _ =>
                  match var.val with
                  | some name => .ok (.Declaration (.Declare name exp), rest4)
                  | none => .error .panic
      else
        match parse_statement fuel tokens with
        | .error e => .error e
        | .ok (state, ts) => .ok (.Statement state, ts)
    | [] =>
      match parse_statement fuel [] with
      | .error e => .error e
      | .ok (state, ts) => .ok (.Statement state, ts)

/-- The `while tokens.get(0).unwrap().token_type != CloseBrace` loop of
`parse_func`; `parse_block_item` failures are unwrapped (panic). -/
def parseFuncLoop : Nat → List BlockItem → List Token → PResult (List BlockItem × List Token)
  | 0, _, _ => .error .fuelOut
  | fuel + 1, blocks, tokens =>
    match tokens.get? 0 with
    | none => .error .panic
    | some t =>
      if t.token_type == .CloseBrace then .ok (blocks, tokens)
      else
        match unwrapE (parse_block_item fuel tokens) with
        | .error e => .error e
        | .ok (block, toks) => parseFuncLoop fuel (blocks ++ [block]) toks

/-- `parse_func`: `int NAME ( ) { block_item* }`.  Every token-kind check in
the header and the loop body is `.unwrap()`-ed. -/
def parse_func : Nat → List Token → PResult (FuncDecl × List Token)
  | 0, _ => .error .fuelOut
  | fuel + 1, tokens =>
    match expectToken tokens .Int with
    | .error e => .error e
    | .ok (_, ts1) =>
      match expectToken ts1 .Identifier with
      | .error e => .error e
      | .ok (func_name, ts2) =>
        match expectToken ts2 .OpenParenthesis with
        | .error e => .error e
        | .ok (_, ts3) =>
          match expectToken ts3 .CloseParenthesis with
          | .error e => .error e
          | .ok (_, ts4) =>
            match expectToken ts4 .OpenBrace with
            | .error e => .error e
            | .ok (_, ts5) =>
              match parseFuncLoop fuel [] ts5 with
              | .error e => .error e
              | .ok (blocks, rest) =>
                match rest with
                | [] => .error .panic
                | _ :: rest2 =>
                  match func_name.val with
                  | some name => .ok (⟨name, [], some blocks⟩, rest2)
                  | none => .error .panic

end

/-- `parse`: the public entry point, `Ok(Program(decl))` or the propagated
error. -/
def parse (fuel : Nat) (tokens : List Token) : PResult Program :=
  match parse_func fuel tokens with
  | .ok (decl, _) => .ok ⟨decl⟩
  | .error e => .error e

end Parser

/-! ## TAC lowering (src/tac.rs)

The lowering pass has no error channel in the source: `il` returns
`Vec<FuncDef>` and `Generator::parse` returns `Option<FuncDef>`.  All
failure points are Rust panics, modelled by `TacPanic`:
  - `duplicateDecl`   : the `unimplemented!()` in `Context::add_symbol` when
    a name is redeclared in the same scope;
  - `unresolved`      : the `.unwrap()` in `Generator::recognize_var` when
    `scope_symbol` finds nothing;
  - `noLoopCtx`       : the `.unwrap()` in `Context::loop_end`/`loop_start`
    on an empty loop-context stack (`break`/`continue` outside a loop);
  - `scopesEmpty`     : `scopes.last().unwrap()` with no open scope;
  - `emitNone`        : `.unwrap()` on `emit` returning no defining ID;
  - `unimplementedOp` : the `unimplemented!()` arms of `TypeOp::from` for
    `BinOp::And` and `BinOp::Or`;
  - `unreachableUnOp` : the `unreachable!()` arm of tac's `UnOp::from`;
  - `unimplementedExp`: the catch-all `unimplemented!()` of `emit_expr`. -/

namespace Tac

inductive IDType
  | Temporary | Var
  deriving DecidableEq, Repr

structure ID where
  id : Nat
  tp : IDType
  deriving DecidableEq, Repr

abbrev Label : Type := Nat

inductive ArithmeticOp
  | Add | Sub | Mul | Div | Mod
  deriving DecidableEq, Repr

inductive BitwiseOp
  | And | Or | Xor | LShift | RShift
  deriving DecidableEq, Repr

/-- tac's own unary-operator enum (`tac::UnOp`). -/
inductive UnOp
  | Neg | BitComplement | LogicNeg
  deriving DecidableEq, Repr

inductive RelationalOp
  | Less | LessOrEq | Greater | GreaterOrEq
  deriving DecidableEq, Repr

inductive EqualityOp
  | Equal | NotEq
  deriving DecidableEq, Repr

inductive TypeOp
  | Arithmetic (op : ArithmeticOp)
  | Relational (op : RelationalOp)
  | Equality (op : EqualityOp)
  | Bit (op : BitwiseOp)
  deriving DecidableEq, Repr

inductive Op
  | Op (op : TypeOp) (a b : ID)
  | Unary (op : UnOp) (a : ID)
  deriving DecidableEq, Repr

inductive Const
  | Int (v : Int)
  deriving DecidableEq, Repr

inductive Branch
  | GOTO (l : Label)
  | IfGOTO (id : ID) (l : Label)
  deriving DecidableEq, Repr

inductive ControlOp
  | Label (l : Label)
  | Branch (b : Branch)
  | Return (id : ID)
  deriving DecidableEq, Repr

inductive FnType
  | LCall
  deriving DecidableEq, Repr

structure Call where
  name : String
  params : List ID
  pop_size : Nat
  tp : FnType
  deriving DecidableEq, Repr

/-- `Call::new`. -/
def Call.new (name : String) (params : List ID) (params_size : Nat) : Call :=
  ⟨name, params, params_size, .LCall⟩

inductive Instruction
  | Assignment (dst src : ID)
  | Alloc (c : Const)
  | Op (o : Op)
  | Call (c : Call)
  | ControlOp (c : ControlOp)
  deriving DecidableEq, Repr

/-- `InstructionLine(Instruction, Option<ID>)`. -/
structure InstructionLine where
  inst : Instruction
  id : Option ID
  deriving DecidableEq, Repr

/-- `TypeOp::from(&ast::BinOp)`: `none` models the `unimplemented!()` arms
for `And` and `Or`. -/
def TypeOp.fromBinOp : BinOp → Option TypeOp
  | .Addition => some (.Arithmetic .Add)
  | .Sub => some (.Arithmetic .Sub)
  | .Multiplication => some (.Arithmetic .Mul)
  | .Division => some (.Arithmetic .Div)
  | .Modulo => some (.Arithmetic .Mod)
  | .BitwiseAnd => some (.Bit .And)
  | .BitwiseOr => some (.Bit .Or)
  | .BitwiseXor => some (.Bit .Xor)
  | .BitwiseLeftShift => some (.Bit .LShift)
  | .BitwiseRightShift => some (.Bit .RShift)
  | .Equal => some (.Equality .Equal)
  | .NotEqual => some (.Equality .NotEq)
  | .GreaterThan => some (.Relational .Greater)
  | .GreaterThanOrEqual => some (.Relational .GreaterOrEq)
  | .LessThan => some (.Relational .Less)
  | .LessThanOrEqual => some (.Relational .LessOrEq)
  | .And => none
  | .Or => none

/-- tac's `UnOp::from(&ast::UnOp)`: `none` models the `unreachable!()` arm
(increment/decrement variants). -/
def UnOp.fromAst : SCC.UnOp → Option UnOp
  | .Negation => some .Neg
  | .BitwiseComplement => some .BitComplement
  | .LogicalNegation => some .LogicNeg
  | _ => none

inductive TacPanic
  | duplicateDecl | unresolved | noLoopCtx | scopesEmpty
  | emitNone | unimplementedOp | unreachableUnOp | unimplementedExp
  | fuelOut
  deriving DecidableEq, Repr

structure LoopContext where
  beginL : Label
  endL : Label
  deriving DecidableEq, Repr

/-- `Context`: `symbols` is the per-function name-to-ID map (association
list, most recent binding first, mirroring `HashMap` insert-overwrite);
`scopes` is the scope stack with the HEAD as the innermost (Rust `Vec`
back); `loop_ctx` likewise has the innermost loop at the head. -/
structure Context where
  symbols : List (String × ID)
  symbols_counter : Nat
  scopes : List (List String)
  loop_ctx : List LoopContext
  deriving DecidableEq, Repr

namespace Context

def new : Context := ⟨[], 0, [[]], []⟩

def push_scope (c : Context) : Context :=
  { c with scopes := [] :: c.scopes }

def pop_scope (c : Context) : Context :=
  { c with scopes := c.scopes.tail }

/-- `HashSet::insert` on the innermost scope: `false` when already present.
Panics (`scopesEmpty`) when there is no scope, as `last_mut().unwrap()`
does. -/
def add_symbol_to_scope (c : Context) (name : String) :
    Except TacPanic (Bool × Context) :=
  match c.scopes with
  | [] => .error .scopesEmpty
  | s :: rest =>
    if s.contains name then .ok (false, c)
    else .ok (true, { c with scopes := (name :: s) :: rest })

/-- `Context::add_symbol`: the redeclaration case is the source's
`unimplemented!()`.  Note that `symbols_counter` is never incremented
anywhere in src/tac.rs, so every variable receives ID 0. -/
def add_symbol (c : Context) (name : String) : Except TacPanic (ID × Context) :=
  match c.add_symbol_to_scope name with
  | .error e => .error e
  | .ok (inserted, c') =>
    if !inserted then .error .duplicateDecl
    else
      let id : ID := ⟨c'.symbols_counter, .Var⟩
      .ok (id, { c' with symbols := (name, id) :: c'.symbols })

/-- `Context::scope_symbol`: consults ONLY the innermost scope's name set;
when the name is there, the (single, per-function) `symbols` map gives the
ID. -/
def scope_symbol (c : Context) (name : String) : Except TacPanic (Option ID) :=
  match c.scopes with
  | [] => .error .scopesEmpty
  | last_scope :: _ =>
    if last_scope.contains name then
      .ok ((c.symbols.find? (fun p => p.1 == name)).map (·.2))
    else .ok none

def push_loop (c : Context) (ctx : LoopContext) : Context :=
  { c with loop_ctx := ctx :: c.loop_ctx }

def pop_loop (c : Context) : Context :=
  { c with loop_ctx := c.loop_ctx.tail }

/-- `Context::loop_end`: `.unwrap()` on the innermost loop context. -/
def loop_end (c : Context) : Except TacPanic Label :=
  match c.loop_ctx with
  | [] => .error .noLoopCtx
  | lc :: _ => .ok lc.endL

/-- `Context::loop_start`. -/
def loop_start (c : Context) : Except TacPanic Label :=
  match c.loop_ctx with
  | [] => .error .noLoopCtx
  | lc :: _ => .ok lc.beginL

end Context

/-- `Generator`: `counters` is the `[usize; 3]` array — `c0` temporaries,
`c1` variables (never used), `c2` labels. -/
structure Generator where
  instructions : List InstructionLine
  context : Context
  c0 : Nat
  c1 : Nat
  c2 : Nat
  allocated : Nat
  deriving DecidableEq, Repr

def Generator.new : Generator := ⟨[], Context.new, 0, 0, 0, 0⟩

/-- State-and-panic monad over `Generator` in which the lowering functions
are written. -/
abbrev GenM (α : Type) : Type := Generator → Except TacPanic (α × Generator)

instance : Monad GenM where
  pure a := fun g => .ok (a, g)
  bind m f := fun g =>
    match m g with
    | .ok (a, g') => f a g'
    | .error e => .error e

/-- Raise a modelled panic. -/
def panicWith {α : Type} (e : TacPanic) : GenM α := fun _ => .error e

/-- Run a pure `Context` transformation. -/
def modifyCtx (f : Context → Context) : GenM Unit :=
  fun g => .ok ((), { g with context := f g.context })

/-- Run a fallible `Context` operation. -/
def liftCtx {α : Type} (f : Context → Except TacPanic (α × Context)) : GenM α :=
  fun g =>
    match f g.context with
    | .ok (a, c) => .ok (a, { g with context := c })
    | .error e => .error e

/-- Read a fallible `Context` observation. -/
def askCtx {α : Type} (f : Context → Except TacPanic α) : GenM α :=
  fun g =>
    match f g.context with
    | .ok a => .ok (a, g)
    | .error e => .error e

namespace Generator

/-- `Generator::inc_tmp`: returns the old temporary counter. -/
def inc_tmp : GenM Nat :=
  fun g => .ok (g.c0, { g with c0 := g.c0 + 1 })

/-- `Generator::uniq_label`. -/
def uniq_label : GenM Label :=
  fun g => .ok (g.c2, { g with c2 := g.c2 + 1 })

/-- `Generator::alloc_tmp`. -/
def alloc_tmp : GenM ID := do
  let _ ← (fun g => .ok ((), { g with allocated := g.allocated + 1 }) : GenM Unit)
  let i ← inc_tmp
  pure ⟨i, .Temporary⟩

/-- `Generator::alloc_var`. -/
def alloc_var (name : String) : GenM ID := do
  let _ ← (fun g => .ok ((), { g with allocated := g.allocated + 1 }) : GenM Unit)
  liftCtx (fun c => c.add_symbol name)

/-- `Generator::emit`: compute the optional defining ID, push the
instruction line, return the ID. -/
def emit (inst : Instruction) : GenM (Option ID) := do
  let id : Option ID ←
    match inst with
    | .Op _ => do pure (some (← alloc_tmp))
    | .Assignment dst _ => pure (some dst)
    | .Alloc _ => do pure (some (← alloc_tmp))
    | .Call _ => do pure (some (← alloc_tmp))
    | _ => pure none
  fun g => .ok (id, { g with instructions := g.instructions ++ [⟨inst, id⟩] })

/-- `.unwrap()` on the `Option<ID>` returned by `emit`. -/
def unwrapID (o : Option ID) : GenM ID :=
  match o with
  | some id => pure id
  | none => panicWith .emitNone

/-- `Generator::recognize_var`: `scope_symbol(name).unwrap()`. -/
def recognize_var (name : String) : GenM ID := do
  match ← askCtx (fun c => c.scope_symbol name) with
  | some id => pure id
  | none => panicWith .unresolved

/-- `Generator::start_scope` / `Generator::end_scope`. -/
def start_scope : GenM Unit := modifyCtx Context.push_scope

def end_scope : GenM Unit := modifyCtx Context.pop_scope

/-- Explicit state-passing sequencing used by the recursive lowering
functions (keeps every recursive call fully applied). -/
def bindE {α β : Type} (r : Except TacPanic (α × Generator))
    (f : α → Generator → Except TacPanic (β × Generator)) :
    Except TacPanic (β × Generator) :=
  match r with
  | .ok (a, g) => f a g
  | .error e => .error e

mutual

/-- `Generator::emit_expr`. -/
def emit_expr : Nat → Exp → Generator → Except TacPanic (ID × Generator)
  | 0, _, _ => .error .fuelOut
  | fuel + 1, exp, g =>
    match exp with
    | .Var name => recognize_var name g
    | .Const val => bindE (emit (.Alloc (.Int val)) g) unwrapID
    | .FuncCall name params =>
      bindE (emit_expr_list fuel params g) fun ids g1 =>
        bindE (emit (.Call (Call.new name ids (params.length * 4))) g1) unwrapID
    | .UnOp op e =>
      bindE (emit_expr fuel e g) fun exp_id g1 =>
        match UnOp.fromAst op with
        | some top => bindE (emit (.Op (.Unary top exp_id)) g1) unwrapID
        | none => .error .unreachableUnOp
    | .BinOp op e1 e2 =>
      bindE (emit_expr fuel e1 g) fun id1 g1 =>
        bindE (emit_expr fuel e2 g1) fun id2 g2 =>
          match TypeOp.fromBinOp op with
          | some top => bindE (emit (.Op (.Op top id1 id2)) g2) unwrapID
          | none => .error .unimplementedOp
    | .Assign name e =>
      bindE (recognize_var name g) fun var_id g1 =>
        bindE (emit_expr fuel e g1) fun exp_id g2 =>
          bindE (emit (.Assignment var_id exp_id) g2) unwrapID
    | .CondExp cond e1 e2 =>
      bindE (uniq_label g) fun end_label g1 =>
      bindE (uniq_label g1) fun exp2_label g2 =>
      bindE (alloc_tmp g2) fun tmp_id g3 =>
      bindE (emit_expr fuel cond g3) fun cond_id g4 =>
      bindE (emit (.ControlOp (.Branch (.IfGOTO cond_id exp2_label))) g4) fun _ g5 =>
      bindE (emit_expr fuel e1 g5) fun exp_id g6 =>
      bindE (emit (.Assignment tmp_id exp_id) g6) fun _ g7 =>
      bindE (emit (.ControlOp (.Branch (.GOTO end_label))) g7) fun _ g8 =>
      bindE (emit (.ControlOp (.Label exp2_label)) g8) fun _ g9 =>
      bindE (emit_expr fuel e2 g9) fun exp_id2 g10 =>
      bindE (emit (.Assignment tmp_id exp_id2) g10) fun _ g11 =>
      bindE (emit (.ControlOp (.Label end_label)) g11) fun _ g12 =>
      .ok (tmp_id, g12)
    | _ => .error .unimplementedExp

/-- Left-to-right lowering of a call's argument list
(`params.iter().map(|exp| self.emit_expr(exp)).collect()`). -/
def emit_expr_list : Nat → List Exp → Generator → Except TacPanic (List ID × Generator)
  | 0, _, _ => .error .fuelOut
  | _ + 1, [], g => .ok ([], g)
  | fuel + 1, e :: rest, g =>
    bindE (emit_expr fuel e g) fun id g1 =>
      bindE (emit_expr_list fuel rest g1) fun ids g2 =>
        .ok (id :: ids, g2)

/-- `Generator::emit_decl`. -/
def emit_decl : Nat → Declaration → Generator → Except TacPanic (Unit × Generator)
  | 0, _, _ => .error .fuelOut
  | fuel + 1, .Declare name exp, g =>
    bindE (alloc_var name g) fun var_id g1 =>
      match exp with
      | some e =>
        bindE (emit_expr fuel e g1) fun exp_id g2 =>
          bindE (emit (.Assignment var_id exp_id) g2) fun _ g3 => .ok ((), g3)
      | none => .ok ((), g1)

/-- `Generator::emit_block`. -/
def emit_block : Nat → BlockItem → Generator → Except TacPanic (Unit × Generator)
  | 0, _, _ => .error .fuelOut
  | fuel + 1, .Declaration decl, g => emit_decl fuel decl g
  | fuel + 1, .Statement st, g => emit_statement fuel st g

/-- `Generator::emit_statement`. -/
def emit_statement : Nat → Statement → Generator → Except TacPanic (Unit × Generator)
  | 0, _, _ => .error .fuelOut
  | fuel + 1, st, g =>
    match st with
    | .Exp exp =>
      match exp with
      | some e => bindE (emit_expr fuel e g) fun _ g1 => .ok ((), g1)
      | none => .ok ((), g)
    | .Return exp =>
      bindE (emit_expr fuel exp g) fun id g1 =>
        bindE (emit (.ControlOp (.Return id)) g1) fun _ g2 => .ok ((), g2)
    | .Conditional cond_expr if_block else_block =>
      bindE (emit_expr fuel cond_expr g) fun cond_id g1 =>
      bindE (uniq_label g1) fun end_label g2 =>
      bindE (emit (.ControlOp (.Branch (.IfGOTO cond_id end_label))) g2) fun _ g3 =>
      bindE (emit_statement fuel if_block g3) fun _ g4 =>
      match else_block with
      | some els =>
        bindE (uniq_label g4) fun end_label2 g5 =>
        bindE (emit (.ControlOp (.Branch (.GOTO end_label2))) g5) fun _ g6 =>
        bindE (emit (.ControlOp (.Label end_label)) g6) fun _ g7 =>
        bindE (emit_statement fuel els g7) fun _ g8 =>
        bindE (emit (.ControlOp (.Label end_label2)) g8) fun _ g9 => .ok ((), g9)
      | none =>
        bindE (emit (.ControlOp (.Label end_label)) g4) fun _ g5 => .ok ((), g5)
    | .Compound list =>
      bindE (start_scope g) fun _ g1 =>
      bindE (match list with
             | some items => emit_block_list fuel items g1
             | none => .ok ((), g1)) fun _ g2 =>
      end_scope g2
    | .While exp statement =>
      bindE (uniq_label g) fun begin_label g1 =>
      bindE (uniq_label g1) fun end_label g2 =>
      bindE (modifyCtx (fun c => c.push_loop ⟨begin_label, end_label⟩) g2) fun _ g3 =>
      bindE (emit (.ControlOp (.Label begin_label)) g3) fun _ g4 =>
      bindE (emit_expr fuel exp g4) fun cond_id g5 =>
      bindE (emit (.ControlOp (.Branch (.IfGOTO cond_id end_label))) g5) fun _ g6 =>
      bindE (start_scope g6) fun _ g7 =>
      bindE (emit_statement fuel statement g7) fun _ g8 =>
      bindE (end_scope g8) fun _ g9 =>
      bindE (emit (.ControlOp (.Branch (.GOTO begin_label))) g9) fun _ g10 =>
      bindE (emit (.ControlOp (.Label end_label)) g10) fun _ g11 =>
      modifyCtx Context.pop_loop g11
    | .Do statement exp =>
      bindE (uniq_label g) fun begin_label g1 =>
      bindE (uniq_label g1) fun end_label g2 =>
      bindE (modifyCtx (fun c => c.push_loop ⟨begin_label, end_label⟩) g2) fun _ g3 =>
      bindE (emit (.ControlOp (.Label begin_label)) g3) fun _ g4 =>
      bindE (start_scope g4) fun _ g5 =>
      bindE (emit_statement fuel statement g5) fun _ g6 =>
      bindE (end_scope g6) fun _ g7 =>
      bindE (emit_expr fuel exp g7) fun cond_id g8 =>
      bindE (emit (.ControlOp (.Branch (.IfGOTO cond_id end_label))) g8) fun _ g9 =>
      bindE (emit (.ControlOp (.Branch (.GOTO begin_label))) g9) fun _ g10 =>
      bindE (emit (.ControlOp (.Label end_label)) g10) fun _ g11 =>
      modifyCtx Context.pop_loop g11
    | .ForDecl decl exp2 exp3 statement =>
      bindE (uniq_label g) fun begin_label g1 =>
      bindE (uniq_label g1) fun end_label g2 =>
      bindE (modifyCtx (fun c => c.push_loop ⟨begin_label, end_label⟩) g2) fun _ g3 =>
      bindE (start_scope g3) fun _ g4 =>
      bindE (emit_decl fuel decl g4) fun _ g5 =>
      bindE (end_scope g5) fun _ g6 =>
      bindE (emit (.ControlOp (.Label begin_label)) g6) fun _ g7 =>
      bindE (emit_expr fuel exp2 g7) fun cond_id g8 =>
      bindE (emit (.ControlOp (.Branch (.IfGOTO cond_id end_label))) g8) fun _ g9 =>
      bindE (start_scope g9) fun _ g10 =>
      bindE (emit_statement fuel statement g10) fun _ g11 =>
      bindE (end_scope g11) fun _ g12 =>
      bindE (match exp3 with
             | some e3 => bindE (emit_expr fuel e3 g12) fun _ gx => .ok ((), gx)
             | none => .ok ((), g12)) fun _ g13 =>
      bindE (emit (.ControlOp (.Branch (.GOTO begin_label))) g13) fun _ g14 =>
      bindE (emit (.ControlOp (.Label end_label)) g14) fun _ g15 =>
      modifyCtx Context.pop_loop g15
    | .For exp1 exp2 exp3 statement =>
      bindE (uniq_label g) fun begin_label g1 =>
      bindE (uniq_label g1) fun end_label g2 =>
      bindE (modifyCtx (fun c => c.push_loop ⟨begin_label, end_label⟩) g2) fun _ g3 =>
      bindE (match exp1 with
             | some e1 => bindE (emit_expr fuel e1 g3) fun _ gx => .ok ((), gx)
             | none => .ok ((), g3)) fun _ g4 =>
      bindE (emit (.ControlOp (.Label begin_label)) g4) fun _ g5 =>
      bindE (emit_expr fuel exp2 g5) fun cond_id g6 =>
      bindE (emit (.ControlOp (.Branch (.IfGOTO cond_id end_label))) g6) fun _ g7 =>
      bindE (start_scope g7) fun _ g8 =>
      bindE (emit_statement fuel statement g8) fun _ g9 =>
      bindE (end_scope g9) fun _ g10 =>
      bindE (match exp3 with
             | some e3 => bindE (emit_expr fuel e3 g10) fun _ gx => .ok ((), gx)
             | none => .ok ((), g10)) fun _ g11 =>
      bindE (emit (.ControlOp (.Branch (.GOTO begin_label))) g11) fun _ g12 =>
      bindE (emit (.ControlOp (.Label end_label)) g12) fun _ g13 =>
      modifyCtx Context.pop_loop g13
    | .Break =>
      bindE (askCtx Context.loop_end g) fun target g1 =>
        bindE (emit (.ControlOp (.Branch (.GOTO target))) g1) fun _ g2 => .ok ((), g2)
    | .Continue =>
      bindE (askCtx Context.loop_start g) fun target g1 =>
        bindE (emit (.ControlOp (.Branch (.GOTO target))) g1) fun _ g2 => .ok ((), g2)

/-- Sequential lowering of the items of a compound block. -/
def emit_block_list : Nat → List BlockItem → Generator → Except TacPanic (Unit × Generator)
  | 0, _, _ => .error .fuelOut
  | _ + 1, [], g => .ok ((), g)
  | fuel + 1, b :: rest, g =>
    bindE (emit_block fuel b g) fun _ g1 =>
      emit_block_list fuel rest g1

end

end Generator

/-- `FuncDef`. -/
structure FuncDef where
  name : String
  frame_size : Nat
  vars : List (Nat × String)
  instructions : List InstructionLine
  deriving DecidableEq, Repr

namespace Generator

/-- `Generator::allocated_memory`: `allocated * 4`. -/
def allocated_memory (g : Generator) : Nat := g.allocated * 4

/-- `Generator::flush`: resets `allocated`, swaps out the instruction
list. -/
def flush : GenM (List InstructionLine) :=
  fun g => .ok (g.instructions, { g with instructions := [], allocated := 0 })

/-- Left fold of `alloc_var` over the parameter names. -/
def alloc_params : Nat → List String → Generator → Except TacPanic (Unit × Generator)
  | 0, _, _ => .error .fuelOut
  | _ + 1, [], g => .ok ((), g)
  | fuel + 1, p :: rest, g =>
    bindE (alloc_var p g) fun _ g1 => alloc_params fuel rest g1

/-- `Generator::parse`: `None` for a body-less declaration; otherwise lower
every block, then package the `FuncDef` (frame size read before `flush`
resets the allocation counter, `vars` collected from the symbol map which
is then cleared). -/
def parse (fuel : Nat) (func : FuncDecl) (g : Generator) :
    Except TacPanic (Option FuncDef × Generator) :=
  match func.blocks with
  | none => .ok (none, g)
  | some blocks =>
    bindE (alloc_params fuel func.parameters g) fun _ g1 =>
    bindE (emit_block_list fuel blocks g1) fun _ g2 =>
    let vars := g2.context.symbols.map (fun p => (p.2.id, p.1))
    bindE (modifyCtx (fun c => { c with symbols := [] }) g2) fun _ g3 =>
    let fs := g3.allocated_memory
    bindE (flush g3) fun instrs g4 =>
    .ok (some ⟨func.name, fs, vars, instrs⟩, g4)

end Generator

/-- `il`: lower each function of the program with one shared `Generator`,
keeping the `Some` results. -/
def il (fuel : Nat) : List FuncDecl → Generator → Except TacPanic (List FuncDef × Generator)
  | [], g => .ok ([], g)
  | f :: rest, g =>
    Generator.bindE (Generator.parse fuel f g) fun fd g1 =>
      Generator.bindE (il fuel rest g1) fun fds g2 =>
        match fd with
        | some d => .ok (d :: fds, g2)
        | none => .ok (fds, g2)

end Tac

/-! ## Backend (src/generator/translator.rs, src/generator/x64_translator.rs,
src/generator/from_tac.rs)

Panics of the backend are modelled by `BackPanic`:
  - `unresolvedId`       : `.unwrap()` in `const_or_allocated` when the
    memory map has no place for a referenced ID;
  - `badRegister`        : `.unwrap()` in `Register::new` on an unknown
    register name;
  - `unimplementedSize`  : the `unimplemented!()` arms of `Register::size`,
    `Register::cast` and `X64Backend::alloc`;
  - `noneId`             : `line.1.unwrap()` in `translate` when the
    instruction line has no defining ID;
  - `unimplementedInstr` : the `unimplemented!()` arms of `translate`
    (division/modulo, non-arithmetic ops, the catch-all);
  - `missingTraitMethod` : `translate` invokes `sub`, `mul`, `label`,
    `jump` and `if_goto` on the translator, but the `Translator` trait in
    src/generator/translator.rs declares none of them and `X64Backend`
    implements none of them; those call sites cannot be resolved against
    the sources. -/

namespace Backend

/-- translator.rs: `pub type Id = u32`. -/
abbrev Id : Type := Nat

/-- translator.rs `Value`. -/
inductive Value
  | Const (v : Int)
  | Ref (id : Id)
  deriving DecidableEq, Repr

/-- translator.rs `Type` (renamed: `Type` is reserved in Lean). -/
inductive AsmType
  | Byte | Word | Doubleword | Quadword
  deriving DecidableEq, Repr

inductive BackPanic
  | unresolvedId | badRegister | unimplementedSize
  | noneId | unimplementedInstr | missingTraitMethod
  deriving DecidableEq, Repr

/-- x64_translator.rs `Register(usize)`: an index into the register
table. -/
structure Register where
  idx : Nat
  deriving DecidableEq, Repr

namespace Register

/-- `Register::REGISTERS` (two leading empty entries so that the numeric
index encodes the size; see `Register::size`). -/
def REGISTERS : List String :=
  ["", "", "rax", "eax", "rbx", "ebx", "rcx", "ecx", "rdx", "edx",
   "rsi", "esi", "rdi", "edi", "rbp", "ebp", "rsp", "esp",
   "r8", "r8d", "r9", "r9d", "r10", "r10d", "r11", "r11d",
   "r12", "r12d", "r13", "r13d", "r14", "r14d", "r15", "r15d"]

/-- `Register::reg_index`: index of the first table entry equal to the
name. -/
def reg_index (reg : String) : Option Nat :=
  REGISTERS.findIdx? (fun r => r == reg)

/-- `Register::new`: `reg_index(..).unwrap()`. -/
def new (reg_str : String) : Except BackPanic Register :=
  match reg_index reg_str with
  | some index => .ok ⟨index⟩
  | none => .error .badRegister

/-- `Register::size`: quadword for an even index, doubleword for an odd
index divisible by 3, `unimplemented!()` otherwise. -/
def size (r : Register) : Option AsmType :=
  if r.idx % 2 = 0 then some .Quadword
  else if r.idx % 3 = 0 then some .Doubleword
  else none

/-- `Register::cast`: identity on equal sizes, otherwise move one slot
right (quadword view to doubleword view) or left; `none` models the
panics (of `size` and of the `unimplemented!()` arm). -/
def cast (r : Register) (sz : AsmType) : Option Register :=
  match size r with
  | none => none
  | some self_size =>
    if self_size == sz then some r
    else
      match self_size, sz with
      | .Quadword, .Doubleword => some ⟨r.idx + 1⟩
      | .Doubleword, .Quadword => some ⟨r.idx - 1⟩
      | _, _ => none

end Register

inductive Place
  | Stack (offset : Nat) (t : AsmType)
  | Register (r : Register)
  deriving DecidableEq, Repr

inductive AsmValue
  | Const (v : Int) (t : AsmType)
  | Place (p : Place)
  deriving DecidableEq, Repr

inductive AsmX32
  | Metadata (s : String)
  | Label (s : String)
  | Mov (p : Place) (v : AsmValue)
  | Add (p : Place) (v : AsmValue)
  | Push (v : AsmValue)
  | Pop (p : Place)
  | Ret
  deriving DecidableEq, Repr

/-- `X64Backend`: `memory` is the per-function `Id → Place` table
(association list, most recent binding first). -/
structure X64Backend where
  stack_index : Nat
  memory : List (Id × Place)
  asm : List AsmX32
  deriving DecidableEq, Repr

namespace X64Backend

def new : X64Backend := ⟨0, [], []⟩

def push_asm (b : X64Backend) (i : AsmX32) : X64Backend :=
  { b with asm := b.asm ++ [i] }

/-- `X64Backend::place`. -/
def place (b : X64Backend) (id : Id) : Option Place :=
  (b.memory.find? (fun p => p.1 == id)).map (·.2)

/-- `X64Backend::save_place`. -/
def save_place (b : X64Backend) (id : Id) (p : Place) : X64Backend :=
  { b with memory := (id, p) :: b.memory }

/-- `X64Backend::const_or_allocated`: `.unwrap()` on the place lookup. -/
def const_or_allocated (b : X64Backend) (t : AsmType) (v : Value) :
    Except BackPanic AsmValue :=
  match v with
  | .Const int => .ok (.Const int t)
  | .Ref id =>
    match b.place id with
    | some p => .ok (.Place p)
    | none => .error .unresolvedId

/-- `X64Backend::value_size`. -/
def value_size (v : AsmValue) : Except BackPanic AsmType :=
  match v with
  | .Const _ t => .ok t
  | .Place (.Stack _ t) => .ok t
  | .Place (.Register reg) =>
    match reg.size with
    | some t => .ok t
    | none => .error .unimplementedSize

/-- `X64Backend::copy_on`. -/
def copy_on (b : X64Backend) (t : AsmType) (v : Value) (p : Place) :
    Except BackPanic (Place × X64Backend) :=
  match b.const_or_allocated t v with
  | .error e => .error e
  | .ok value => .ok (p, b.push_asm (.Mov p value))

/-- `X64Backend::alloc`. -/
def alloc (b : X64Backend) (t : AsmType) : Except BackPanic (Place × X64Backend) :=
  match t with
  | .Doubleword => .ok (.Stack (b.stack_index + 4) t, { b with stack_index := b.stack_index + 4 })
  | .Quadword => .ok (.Stack (b.stack_index + 8) t, { b with stack_index := b.stack_index + 8 })
  | _ => .error .unimplementedSize

/-- `Translator::func_begin` for `X64Backend`. -/
def func_begin (b : X64Backend) (name : String) : Except BackPanic X64Backend :=
  match Register.new "rbp", Register.new "rsp" with
  | .ok rbp, .ok rsp =>
    .ok ((((b.push_asm (.Metadata (".globl " ++ name))).push_asm
        (.Label name)).push_asm
        (.Push (.Place (.Register rbp)))).push_asm
        (.Mov (.Register rbp) (.Place (.Register rsp))))
  | _, _ => .error .badRegister

/-- `Translator::func_end` for `X64Backend`. -/
def func_end (b : X64Backend) : Except BackPanic X64Backend :=
  match Register.new "rbp" with
  | .ok rbp => .ok ((b.push_asm (.Pop (.Register rbp))).push_asm .Ret)
  | .error e => .error e

/-- `Translator::save` for `X64Backend`: the body is EMPTY in the source —
nothing is allocated, recorded or emitted. -/
def save (b : X64Backend) (id : Id) (t : AsmType) (value : Option Value) :
    X64Backend :=
  b

/-- `Translator::add` for `X64Backend`. -/
def add (b : X64Backend) (id : Id) (t : AsmType) (a bv : Value) :
    Except BackPanic X64Backend :=
  match b.const_or_allocated t bv with
  | .error e => .error e
  | .ok first =>
    match Register.new "rax" with
    | .error e => .error e
    | .ok rax =>
      match rax.cast t with
      | none => .error .unimplementedSize
      | some reg =>
        let add_register := Place.Register reg
        match b.copy_on t a add_register with
        | .error e => .error e
        | .ok (second, b1) =>
          let b2 := b1.save_place id second
          .ok (b2.push_asm (.Add second first))

/-- `Translator::ret` for `X64Backend`. -/
def ret (b : X64Backend) (t : AsmType) (v : Value) : Except BackPanic X64Backend :=
  match b.const_or_allocated t v with
  | .error e => .error e
  | .ok value =>
    match value_size value with
    | .error e => .error e
    | .ok sz =>
      match Register.new "rax" with
      | .error e => .error e
      | .ok rax =>
        match rax.cast sz with
        | none => .error .unimplementedSize
        | some return_reg =>
          match value with
          | .Place (.Register reg) =>
            if reg == return_reg then .ok b
            else .ok (b.push_asm (.Mov (.Register return_reg) value))
          | _ => .ok (b.push_asm (.Mov (.Register return_reg) value))

end X64Backend

/-! The TAC shape consumed by from_tac.rs.  The module it names
(`crate::il::tac`) is not among the sources; the instruction shape below is
reconstructed from the pattern matches inside `from_tac::translate`
itself: binary operations, `Alloc`, `Assignment` and `IfGOTO`/`Return`
carry `tac::Value`s (constant or ID). -/

namespace ILTac

inductive Value
  | Const (c : Tac.Const)
  | ID (id : Tac.ID)
  deriving DecidableEq, Repr

inductive Op
  | Op (op : Tac.TypeOp) (v1 v2 : Value)
  | Unary (op : Tac.UnOp) (v : Value)
  deriving DecidableEq, Repr

inductive Branch
  | GOTO (l : Tac.Label)
  | IfGOTO (v : Value) (l : Tac.Label)
  deriving DecidableEq, Repr

inductive ControlOp
  | Label (l : Tac.Label)
  | Branch (b : Branch)
  | Return (v : Value)
  deriving DecidableEq, Repr

inductive Instruction
  | Op (o : Op)
  | Alloc (v : Value)
  | Assignment (id : Tac.ID) (v : Value)
  | ControlOp (c : ControlOp)
  deriving DecidableEq, Repr

structure InstructionLine where
  inst : Instruction
  id : Option Tac.ID
  deriving DecidableEq, Repr

end ILTac

/-- `from_tac::parse_id`. -/
def parse_id (id : Tac.ID) : Id := id.id

/-- `from_tac::parse_value`. -/
def parse_value : ILTac.Value → Value
  | .Const (.Int int) => .Const int
  | .ID id => .Ref (parse_id id)

/-- `line.1.unwrap()` of `from_tac::translate`. -/
def unwrapLineId (o : Option Tac.ID) : Except BackPanic Tac.ID :=
  match o with
  | some id => .ok id
  | none => .error .noneId

/-- `from_tac::translate`, monomorphised to the only `Translator`
implementation in the sources (`X64Backend`).  The `Sub`/`Mul`/`Label`/
`GOTO`/`IfGOTO` arms invoke translator methods that do not exist in the
sources (see `BackPanic.missingTraitMethod`). -/
def translate (b : X64Backend) (line : ILTac.InstructionLine) :
    Except BackPanic X64Backend :=
  match line.inst with
  | .Op (.Op op v1 v2) =>
    match op with
    | .Arithmetic .Add =>
      match unwrapLineId line.id with
      | .error e => .error e
      | .ok id => b.add (parse_id id) .Doubleword (parse_value v1) (parse_value v2)
    | .Arithmetic .Sub => .error .missingTraitMethod
    | .Arithmetic .Mul => .error .missingTraitMethod
    | .Arithmetic _ => .error .unimplementedInstr
    | _ => .error .unimplementedInstr
  | .Alloc v =>
    match unwrapLineId line.id with
    | .error e => .error e
    | .ok id => .ok (b.save (parse_id id) .Doubleword (some (parse_value v)))
  | .Assignment _ v =>
    match unwrapLineId line.id with
    | .error e => .error e
    | .ok id => .ok (b.save (parse_id id) .Doubleword (some (parse_value v)))
  | .ControlOp c =>
    match c with
    | .Return v => b.ret .Doubleword (parse_value v)
    | .Label _ => .error .missingTraitMethod
    | .Branch _ => .error .missingTraitMethod
  | _ => .error .unimplementedInstr

/-- Sequential translation of an instruction list (the loop of
`Transit::gen`). -/
def translateList (b : X64Backend) : List ILTac.InstructionLine →
    Except BackPanic X64Backend
  | [] => .ok b
  | line :: rest =>
    match translate b line with
    | .error e => .error e
    | .ok b1 => translateList b1 rest

end Backend

/-! ## Verified properties

Concrete-token helpers for the parser statements (the parser never reads
positions, so the positions are zeroed). -/

/-- An identifier token carrying its lexeme. -/
def identTok (s : String) : Token := ⟨.Identifier, ⟨0, 0⟩, some s⟩

/-- A bare operator/punctuation token. -/
def opTok (tt : TokenType) : Token := ⟨tt, ⟨0, 0⟩, none⟩

/-- Any error produced by `unwrapE` is a panic. -/
theorem unwrapE_error_panic {α : Type} {r : PResult α} {e : PErr}
    (h : unwrapE r = .error e) : e = PErr.panic := by
  cases r with
  | ok a => simp [unwrapE] at h
  | error x =>
    simp only [unwrapE] at h
    exact (Except.error.inj h).symm

/-- `expectToken` never returns the `ParsingError` value: its failures are
panics. -/
theorem expectToken_no_parse_error (ts : List Token) (tt : TokenType) :
    Parser.expectToken ts tt ≠ .error .parseErr := by
  unfold Parser.expectToken
  split
  · simp
  · split
    · simp
    · rename_i heq
      intro hc
      injection hc with hc
      subst hc
      exact absurd (unwrapE_error_panic heq) (by simp)

/-- The block loop of `parse_func` never returns the `ParsingError` value:
`parse_block_item` failures are `.unwrap()`-ed into panics. -/
theorem parseFuncLoop_no_parse_error :
    ∀ (f : Nat) (acc : List BlockItem) (ts : List Token),
    Parser.parseFuncLoop f acc ts ≠ .error .parseErr := by
  intro f
  induction f with
  | zero => intro acc ts; simp [Parser.parseFuncLoop]
  | succ f ih =>
    intro acc ts
    simp only [Parser.parseFuncLoop]
    split
    · simp
    · split
      · simp
      · split
        · rename_i heq
          intro hc
          injection hc with hc
          subst hc
          exact absurd (unwrapE_error_panic heq) (by simp)
        · exact ih _ _

/-- `parse_func` never returns the `ParsingError` value: every token-kind
check in it is `.unwrap()`-ed. -/
theorem parse_func_no_parse_error (f : Nat) (ts : List Token) :
    Parser.parse_func f ts ≠ .error .parseErr := by
  cases f with
  | zero => simp [Parser.parse_func]
  | succ f =>
    simp only [Parser.parse_func]
    split
    · rename_i heq
      intro hc; injection hc with hc; subst hc
      exact expectToken_no_parse_error _ _ heq
    · split
      · rename_i heq
        intro hc; injection hc with hc; subst hc
        exact expectToken_no_parse_error _ _ heq
      · split
        · rename_i heq
          intro hc; injection hc with hc; subst hc
          exact expectToken_no_parse_error _ _ heq
        · split
          · rename_i heq
            intro hc; injection hc with hc; subst hc
            exact expectToken_no_parse_error _ _ heq
          · split
            · rename_i heq
              intro hc; injection hc with hc; subst hc
              exact expectToken_no_parse_error _ _ heq
            · split
              · rename_i heq
                intro hc; injection hc with hc; subst hc
                exact parseFuncLoop_no_parse_error _ _ _ heq
              · split
                · simp
                · split <;> simp

/-- Claim C1: the spec requires that lowering a program containing `&&` or
`||` produce short-circuit branch code on a fresh temporary.  In
src/tac.rs, `TypeOp::from` hits `unimplemented!()` for `BinOp::And` and
`BinOp::Or`, so `emit_expr` panics on every `&&`/`||` (first two
conjuncts); moreover both operands are lowered BEFORE that panic, so the
right operand is processed even when the left operand already determines
the result — witnessed by the resolution panic of the undeclared right
operand `y` surfacing ahead of the operator panic (last two conjuncts). -/
theorem c1_logical_and_or_lowering_panics :
    Tac.Generator.emit_expr 5 (.BinOp .And (.Const 1) (.Const 2)) Tac.Generator.new =
      .error .unimplementedOp ∧
    Tac.Generator.emit_expr 5 (.BinOp .Or (.Const 1) (.Const 2)) Tac.Generator.new =
      .error .unimplementedOp ∧
    Tac.Generator.emit_expr 5 (.BinOp .And (.Const 0) (.Var "y")) Tac.Generator.new =
      .error .unresolved ∧
    Tac.Generator.emit_expr 5 (.BinOp .Or (.Const 1) (.Var "y")) Tac.Generator.new =
      .error .unresolved :=
  ⟨rfl, rfl, rfl, rfl⟩

/-- Claim C2: the spec's precedence ordering requires `a << b + c` to parse
as `a << (b + c)` and `a & b == c` as `a & (b == c)`.  The parser instead
places the shift level BELOW additive (`parse_addictive_expr` delegates to
`parse_bitwise_expr`) and the `&`/`|`/`^` level ABOVE shifts and equality
(`parse_un_op_term`), so both expressions parse left-leaning the other
way: `(a << b) + c` and `(a & b) == c`. -/
theorem c2_shift_and_bitwise_precedence_inverted :
    Parser.parse_exp 100 [identTok "a", opTok .BitwiseLeftShift, identTok "b",
        opTok .Addition, identTok "c"] =
      .ok (.BinOp .Addition (.BinOp .BitwiseLeftShift (.Var "a") (.Var "b")) (.Var "c"), []) ∧
    Parser.parse_exp 100 [identTok "a", opTok .BitwiseAnd, identTok "b",
        opTok .Equal, identTok "c"] =
      .ok (.BinOp .Equal (.BinOp .BitwiseAnd (.Var "a") (.Var "b")) (.Var "c"), []) :=
  ⟨rfl, rfl⟩

/-- Claim C3: the claim says a name declared in an outer scope stays
resolvable inside nested scopes.  `Context::scope_symbol` consults ONLY the
innermost scope's name set: after declaring `x` and pushing a fresh scope,
resolution of `x` yields `none` (second conjunct), and lowering
`int main(){ int x = 1; { return x; } }` panics with the unresolved-name
unwrap instead of resolving `x` (third conjunct). -/
theorem c3_outer_scope_name_unresolvable :
    Tac.Context.new.add_symbol "x" =
      .ok (⟨0, .Var⟩, ⟨[("x", ⟨0, .Var⟩)], 0, [["x"]], []⟩) ∧
    Tac.Context.scope_symbol
      (Tac.Context.push_scope ⟨[("x", ⟨0, .Var⟩)], 0, [["x"]], []⟩) "x" = .ok none ∧
    Tac.Generator.parse 20
      ⟨"main", [], some [.Declaration (.Declare "x" (some (.Const 1))),
        .Statement (.Compound (some [.Statement (.Return (.Var "x"))]))]⟩
      Tac.Generator.new = .error .unresolved :=
  ⟨rfl, rfl, rfl⟩

/-- Claim C4: the spec requires a step label `L_step` placed immediately
before the `for` step code, with `continue` jumping to it.  Lowering
`for (; 1; 7) continue;` yields the instruction list below: the only labels
are `L_begin = 0` (before the condition) and `L_end = 1`; the `continue`
lowers to `GOTO 0`, the step's code (`Alloc 7`, index 4) is preceded by
that goto — not by any label — so `continue` re-tests the condition
WITHOUT executing the step, and no third label exists. -/
theorem c4_for_continue_skips_step :
    Tac.Generator.emit_statement 5
      (.For none (.Const 1) (some (.Const 7)) .Continue) Tac.Generator.new =
    .ok ((),
      { instructions :=
          [⟨.ControlOp (.Label 0), none⟩,
           ⟨.Alloc (.Int 1), some ⟨0, .Temporary⟩⟩,
           ⟨.ControlOp (.Branch (.IfGOTO ⟨0, .Temporary⟩ 1)), none⟩,
           ⟨.ControlOp (.Branch (.GOTO 0)), none⟩,
           ⟨.Alloc (.Int 7), some ⟨1, .Temporary⟩⟩,
           ⟨.ControlOp (.Branch (.GOTO 0)), none⟩,
           ⟨.ControlOp (.Label 1), none⟩],
        context := Tac.Context.new, c0 := 2, c1 := 0, c2 := 2, allocated := 2 }) :=
  rfl

/-- Claim C5: the claim says the lexer is longest-match with keywords
beating identifiers only on EQUAL length.  `find_match` takes the FIRST
definition in `Lexer::new`'s order that matches, and the `int` pattern
(`^int`, no word boundary — unlike `^\breturn\b`) precedes the identifier
pattern, so `integer` is split into the keyword `int` and the identifier
`eger` instead of one identifier; `returnx`, whose keyword pattern does
carry the boundary, lexes as a single identifier. -/
theorem c5_lexer_keyword_prefix_split :
    Lexer.lex "integer".toList =
      [⟨.Int, ⟨0, 3⟩, none⟩, ⟨.Identifier, ⟨3, 7⟩, some "eger"⟩] ∧
    Lexer.lex "returnx".toList = [⟨.Identifier, ⟨0, 7⟩, some "returnx"⟩] :=
  ⟨rfl, rfl⟩

/-- Claim C6 counterexample: on the token list `[return]` — a token of the
wrong kind where `int` is required — `parse` aborts (the modelled panic of
`compare_token(tokens.remove(0), Int).unwrap()`) instead of returning a
parse-error value carrying the offending position and expected kind. -/
theorem c6_counterexample_mismatch_aborts :
    Parser.parse 100 [opTok .Return] = .error .panic :=
  rfl

/-- Claim C6 (amended): parsing either produces a `Program` or aborts via
panic; the error type `CompilerError::ParsingError` carries no position or
expected-kind data, and the top-level `parse` can never return it because
`parse_func` `.unwrap()`s every inner failure. -/
theorem c6_no_positioned_error_returned :
    ∀ (fuel : Nat) (tokens : List Token),
    Parser.parse fuel tokens ≠ .error .parseErr := by
  intro fuel tokens
  unfold Parser.parse
  split
  · simp
  · rename_i heq
    intro hc
    injection hc with hc
    subst hc
    exact parse_func_no_parse_error _ _ heq

/-- Claim C7: the claim says TAC lowering returns `UnresolvedIdentifier`,
`DuplicateDeclaration` and `Break`/`ContinueOutsideLoop` error values to
its caller.  The lowering API has no error channel at all (`il` returns a
bare `Vec<FuncDef>`); each violation is a panic — the `unimplemented!()`
in `add_symbol` for a duplicate, and `.unwrap()` on `None` for an
undeclared name or an empty loop-context stack — modelled here by the
error outcomes of `Generator::parse` on the four smallest violating
programs. -/
theorem c7_lowering_errors_are_panics :
    Tac.Generator.parse 6 ⟨"main", [], some [.Declaration (.Declare "x" none),
      .Declaration (.Declare "x" none)]⟩ Tac.Generator.new = .error .duplicateDecl ∧
    Tac.Generator.parse 6 ⟨"main", [], some [.Statement (.Return (.Var "x"))]⟩
      Tac.Generator.new = .error .unresolved ∧
    Tac.Generator.parse 6 ⟨"main", [], some [.Statement .Break]⟩ Tac.Generator.new =
      .error .noLoopCtx ∧
    Tac.Generator.parse 6 ⟨"main", [], some [.Statement .Continue]⟩ Tac.Generator.new =
      .error .noLoopCtx :=
  ⟨rfl, rfl, rfl, rfl⟩

/-- Claim C8: the claim says that for `Alloc` and `Assignment` the backend
stores the value into a stack slot bound to the destination ID, recording
it in the `Id → Place` table so a later read finds it.
`X64Backend::save` has an EMPTY body: translating an `Alloc` line returns
the backend completely unchanged (first conjunct — no slot, no table
entry, no instruction), and the later `Return` that reads the ID panics on
the `.unwrap()` of the empty place lookup (second conjunct). -/
theorem c8_backend_save_noop :
    Backend.translate Backend.X64Backend.new
      ⟨.Alloc (.Const (.Int 1)), some ⟨0, .Temporary⟩⟩ = .ok Backend.X64Backend.new ∧
    Backend.translateList Backend.X64Backend.new
      [⟨.Alloc (.Const (.Int 1)), some ⟨0, .Temporary⟩⟩,
       ⟨.ControlOp (.Return (.ID ⟨0, .Temporary⟩)), none⟩] = .error .unresolvedId :=
  ⟨rfl, rfl⟩

/-- Claim C9: for every token kind denoting a binary operator (exactly the
domain of `map_token_to_ast` — neither assignment operators nor any
ternary, which this parser does not have), `a op b op c` parses to the
left-leaning tree `(a op b) op c`, for arbitrary identifier spellings. -/
theorem c9_binop_left_associative :
    ∀ (t : TokenType) (op : BinOp), Parser.map_token_to_ast t = some op →
    ∀ (a b c : String),
    Parser.parse_exp 100 [identTok a, opTok t, identTok b, opTok t, identTok c] =
      .ok (.BinOp op (.BinOp op (.Var a) (.Var b)) (.Var c), []) := by
  intro t op h a b c
  cases t <;> first
    | exact Option.noConfusion h
    | (injection h with h; subst h; rfl)

/-- Claim C9 witness: the theorem applied at `+`. -/
theorem c9_binop_left_associative_witness :
    Parser.map_token_to_ast .Addition = some .Addition ∧
    Parser.parse_exp 100 [identTok "a", opTok .Addition, identTok "b",
        opTok .Addition, identTok "c"] =
      .ok (.BinOp .Addition (.BinOp .Addition (.Var "a") (.Var "b")) (.Var "c"), []) :=
  ⟨rfl, c9_binop_left_associative .Addition .Addition rfl "a" "b" "c"⟩

/-- Claim C10: `Register::size` returns `Quadword` exactly on even table
indices, `Doubleword` exactly on odd indices divisible by 3, and panics on
every other index; consequently `size` (and `cast`) is defined for the
pairs rax/eax (2/3), rdx/edx (8/9), rbp/ebp (14/15) but diverges for the
32-bit registers ebx (5), ecx (7), esi (11), edi (13), esp (17) and
r8d (19). -/
theorem c10_register_size_characterization :
    (∀ r : Backend.Register, Backend.Register.size r = some .Quadword ↔ r.idx % 2 = 0) ∧
    (∀ r : Backend.Register, Backend.Register.size r = some .Doubleword ↔
      (r.idx % 2 ≠ 0 ∧ r.idx % 3 = 0)) ∧
    (∀ r : Backend.Register, Backend.Register.size r = none ↔
      (r.idx % 2 ≠ 0 ∧ r.idx % 3 ≠ 0)) ∧
    Backend.Register.reg_index "rax" = some 2 ∧
    Backend.Register.reg_index "eax" = some 3 ∧
    Backend.Register.size ⟨2⟩ = some .Quadword ∧
    Backend.Register.size ⟨3⟩ = some .Doubleword ∧
    Backend.Register.cast ⟨2⟩ .Doubleword = some ⟨3⟩ ∧
    Backend.Register.cast ⟨3⟩ .Quadword = some ⟨2⟩ ∧
    Backend.Register.reg_index "rdx" = some 8 ∧
    Backend.Register.reg_index "edx" = some 9 ∧
    Backend.Register.size ⟨8⟩ = some .Quadword ∧
    Backend.Register.size ⟨9⟩ = some .Doubleword ∧
    Backend.Register.cast ⟨8⟩ .Doubleword = some ⟨9⟩ ∧
    Backend.Register.cast ⟨9⟩ .Quadword = some ⟨8⟩ ∧
    Backend.Register.reg_index "rbp" = some 14 ∧
    Backend.Register.reg_index "ebp" = some 15 ∧
    Backend.Register.size ⟨14⟩ = some .Quadword ∧
    Backend.Register.size ⟨15⟩ = some .Doubleword ∧
    Backend.Register.cast ⟨14⟩ .Doubleword = some ⟨15⟩ ∧
    Backend.Register.cast ⟨15⟩ .Quadword = some ⟨14⟩ ∧
    Backend.Register.reg_index "ebx" = some 5 ∧ Backend.Register.size ⟨5⟩ = none ∧
    Backend.Register.reg_index "ecx" = some 7 ∧ Backend.Register.size ⟨7⟩ = none ∧
    Backend.Register.reg_index "esi" = some 11 ∧ Backend.Register.size ⟨11⟩ = none ∧
    Backend.Register.reg_index "edi" = some 13 ∧ Backend.Register.size ⟨13⟩ = none ∧
    Backend.Register.reg_index "esp" = some 17 ∧ Backend.Register.size ⟨17⟩ = none ∧
    Backend.Register.reg_index "r8d" = some 19 ∧ Backend.Register.size ⟨19⟩ = none := by
  refine ⟨?_, ?_, ?_, ?_⟩
  · intro r
    simp only [Backend.Register.size]
    by_cases h2 : r.idx % 2 = 0 <;> by_cases h3 : r.idx % 3 = 0 <;> simp [h2, h3]
  · intro r
    simp only [Backend.Register.size]
    by_cases h2 : r.idx % 2 = 0 <;> by_cases h3 : r.idx % 3 = 0 <;> simp [h2, h3]
  · intro r
    simp only [Backend.Register.size]
    by_cases h2 : r.idx % 2 = 0 <;> by_cases h3 : r.idx % 3 = 0 <;> simp [h2, h3]
  · decide

end SCC
